import Mathlib

/-!
Verification of the in-memory identity-matching store of this repository
(`src/lib/student-database.ts`) and of the client-side QR payload
encoder/decoder (`QRScannerService.generateStudentQR` / `parseQRData`).

Modelling conventions:
* JavaScript `Date` values are modelled by `JSDate`: the millisecond value
  returned by `Date.now()` together with the strings `toISOString()` and
  `toTimeString()` produce.  Every operation of the source that reads the
  ambient clock takes the current `JSDate` as an explicit argument.
* A JavaScript `Map<string, Student>` is modelled as an association list in
  insertion order: `Map.set` on a present key overwrites in place (keeping
  the entry's position), on an absent key appends; `Map.prototype.values()`
  iterates in insertion order.
* JavaScript numbers are modelled by exact arithmetic (`ℚ` for descriptor
  coordinates, thresholds and percentages, `Int`/`Nat` for counts).
* `Math.sqrt` never needs to be evaluated: every distance the source
  computes is either `Math.sqrt` of a nonnegative sum of squares or
  `Number.POSITIVE_INFINITY`, and the source only ever *compares* distances
  (`distance < threshold`, `distance < bestDistance`).  We therefore carry
  the squared distance in an `Option ℚ` (`none` = positive infinity) and
  implement the two comparisons through the order isomorphism
  `Real.sqrt s < Real.sqrt s' ↔ s < s'` (for `0 ≤ s, s'`) and
  `Real.sqrt s < t ↔ 0 < t ∧ s < t ^ 2` (for `0 ≤ s`).
* `JSON.stringify` / `JSON.parse` are modelled at the level of parsed JSON
  trees (`Json`): a string that is not valid JSON corresponds to the parse
  result `none`.
-/

/-- Model of a JavaScript `Date` instant: `millis` is the number
`Date.now()` returns, `isoString` the string `toISOString()` returns and
`timeString` the string `toTimeString()` returns at that instant. -/
structure JSDate where
  millis : Nat
  isoString : String
  timeString : String
  deriving DecidableEq, Repr

/-- The `method` field of an attendance record: `"face" | "qr"`. -/
inductive AttendanceMethod where
  | face : AttendanceMethod
  | qr : AttendanceMethod
  deriving DecidableEq, Repr

/-- The `status` field of an attendance record:
`"present" | "absent" | "late"`. -/
inductive AttendanceStatus where
  | present : AttendanceStatus
  | absent : AttendanceStatus
  | late : AttendanceStatus
  deriving DecidableEq, Repr

/-- The `Student` interface of `src/lib/student-database.ts`.  The source
fields `class` and `section` are Lean keywords and are rendered as
`classLabel` and `sectionLabel` (the spec's names for the same fields). -/
structure Student where
  id : String
  name : String
  rollNumber : String
  email : Option String
  classLabel : Option String
  sectionLabel : Option String
  faceImageUrl : Option String
  faceDescriptor : Option (List ℚ)
  createdAt : JSDate
  updatedAt : JSDate
  deriving DecidableEq, Repr

/-- The `AttendanceRecord` interface of `src/lib/student-database.ts`. -/
structure AttendanceRecord where
  id : String
  studentId : String
  date : String
  time : String
  method : AttendanceMethod
  confidence : Option ℚ
  status : AttendanceStatus
  deriving DecidableEq, Repr

/-- `Map.prototype.get` on the insertion-ordered association list. -/
def mapGet (m : List (String × Student)) (k : String) : Option Student :=
  (m.find? (fun p => p.1 == k)).map (fun p => p.2)

/-- `Map.prototype.set`: overwrite in place when the key is present
(keeping the entry's position), append when it is absent. -/
def mapSet (m : List (String × Student)) (k : String) (v : Student) :
    List (String × Student) :=
  if m.any (fun p => p.1 == k) then
    m.map (fun p => if p.1 == k then (k, v) else p)
  else m ++ [(k, v)]

/-- `Map.prototype.values()` in insertion order. -/
def mapValues (m : List (String × Student)) : List Student :=
  m.map (fun p => p.2)

/-- The private state of `class StudentDatabase`: the `students` map and
the `attendance` array. -/
structure StudentDatabase where
  students : List (String × Student)
  attendance : List AttendanceRecord
  deriving DecidableEq, Repr

/-- First record of `loadSampleData` (id `"1"`, roll number `"CS001"`). -/
def sampleStudent1 (now : JSDate) : Student :=
  { id := "1", name := "John Doe", rollNumber := "CS001",
    email := some "john.doe@school.edu", classLabel := some "10th",
    sectionLabel := some "A", faceImageUrl := none, faceDescriptor := none,
    createdAt := now, updatedAt := now }

/-- Second record of `loadSampleData` (id `"2"`, roll number `"CS002"`). -/
def sampleStudent2 (now : JSDate) : Student :=
  { id := "2", name := "Jane Smith", rollNumber := "CS002",
    email := some "jane.smith@school.edu", classLabel := some "10th",
    sectionLabel := some "A", faceImageUrl := none, faceDescriptor := none,
    createdAt := now, updatedAt := now }

/-- `loadSampleData`: `sampleStudents.forEach(s => this.students.set(s.id, s))`. -/
def loadSampleData (now : JSDate) : List (String × Student) :=
  [sampleStudent1 now, sampleStudent2 now].foldl (fun m s => mapSet m s.id s) []

/-- The `StudentDatabase` constructor (it only calls `loadSampleData`);
`now` is the construction instant.  The module-level singleton `studentDB`
is one such freshly constructed store. -/
def freshDB (now : JSDate) : StudentDatabase :=
  { students := loadSampleData now, attendance := [] }

/-- `Omit<Student, "id" | "createdAt" | "updatedAt">`, the argument type of
`addStudent`. -/
structure StudentInput where
  name : String
  rollNumber : String
  email : Option String
  classLabel : Option String
  sectionLabel : Option String
  faceImageUrl : Option String
  faceDescriptor : Option (List ℚ)
  deriving DecidableEq, Repr

/-- `addStudent`: builds the record with `id = Date.now().toString()`, both
timestamps `now`, and stores it with `this.students.set(newStudent.id,
newStudent)`.  The source performs no roll-number uniqueness check and no
id-freshness check. -/
def addStudent (db : StudentDatabase) (input : StudentInput) (now : JSDate) :
    Student × StudentDatabase :=
  let newStudent : Student :=
    { id := toString now.millis, name := input.name,
      rollNumber := input.rollNumber, email := input.email,
      classLabel := input.classLabel, sectionLabel := input.sectionLabel,
      faceImageUrl := input.faceImageUrl, faceDescriptor := input.faceDescriptor,
      createdAt := now, updatedAt := now }
  (newStudent, { db with students := mapSet db.students newStudent.id newStudent })

/-- `Partial<Student>`, the argument type of `updateStudent`: every field of
`Student` optional — including `id`.  For the source's own optional fields
the inner `Option` is the field's value (`some none` models a property
explicitly set to `undefined`). -/
structure StudentUpdate where
  id : Option String
  name : Option String
  rollNumber : Option String
  email : Option (Option String)
  classLabel : Option (Option String)
  sectionLabel : Option (Option String)
  faceImageUrl : Option (Option String)
  faceDescriptor : Option (Option (List ℚ))
  createdAt : Option JSDate
  updatedAt : Option JSDate
  deriving DecidableEq, Repr

/-- The update with no field supplied (the empty object literal). -/
def emptyUpdate : StudentUpdate :=
  { id := none, name := none, rollNumber := none, email := none,
    classLabel := none, sectionLabel := none, faceImageUrl := none,
    faceDescriptor := none, createdAt := none, updatedAt := none }

/-- The object spread `{ ...student, ...updates }`: each field supplied by
`updates` overwrites the field of `student`. -/
def spreadUpdate (s : Student) (u : StudentUpdate) : Student :=
  { id := u.id.getD s.id, name := u.name.getD s.name,
    rollNumber := u.rollNumber.getD s.rollNumber,
    email := u.email.getD s.email, classLabel := u.classLabel.getD s.classLabel,
    sectionLabel := u.sectionLabel.getD s.sectionLabel,
    faceImageUrl := u.faceImageUrl.getD s.faceImageUrl,
    faceDescriptor := u.faceDescriptor.getD s.faceDescriptor,
    createdAt := u.createdAt.getD s.createdAt,
    updatedAt := u.updatedAt.getD s.updatedAt }

/-- `updateStudent`: `null` when the id is absent; otherwise
`{ ...student, ...updates, updatedAt: new Date() }` stored back under the
same key. -/
def updateStudent (db : StudentDatabase) (id : String) (updates : StudentUpdate)
    (now : JSDate) : Option Student × StudentDatabase :=
  match mapGet db.students id with
  | none => (none, db)
  | some student =>
    let updatedStudent := { spreadUpdate student updates with updatedAt := now }
    (some updatedStudent,
     { db with students := mapSet db.students id updatedStudent })

/-- `getStudent`: `this.students.get(id) || null`. -/
def getStudent (db : StudentDatabase) (id : String) : Option Student :=
  mapGet db.students id

/-- `getStudentByRollNumber`: first record in iteration (insertion) order
with the given roll number, else `null`. -/
def getStudentByRollNumber (db : StudentDatabase) (rollNumber : String) :
    Option Student :=
  (mapValues db.students).find? (fun s => s.rollNumber == rollNumber)

/-- `getAllStudents`: `Array.from(this.students.values())`, insertion order. -/
def getAllStudents (db : StudentDatabase) : List Student :=
  mapValues db.students

/-- The loop of `calculateEuclideanDistance`: the sum of squared coordinate
differences (the value under the source's final `Math.sqrt`). -/
def distanceSq (a b : List ℚ) : ℚ :=
  ((a.zip b).map (fun p => (p.1 - p.2) ^ 2)).sum

/-- `calculateEuclideanDistance`: `Number.POSITIVE_INFINITY` (here `none`)
when the lengths differ, else `Math.sqrt` of the sum of squares — carried as
the squared distance `some (distanceSq a b)` (see the header comment). -/
def calculateEuclideanDistance (a b : List ℚ) : Option ℚ :=
  if a.length ≠ b.length then none else some (distanceSq a b)

/-- The source comparison `distance < threshold` for a distance
`√s` (`some s`) or `+∞` (`none`): `√s < t ↔ 0 < t ∧ s < t ^ 2`, and
`+∞ < t` is false. -/
def distLtConst (d : Option ℚ) (t : ℚ) : Bool :=
  match d with
  | none => false
  | some s => decide (0 < t) && decide (s < t ^ 2)

/-- The source comparison `distance < bestDistance` between two distances
(`none` = `+∞`, the initial `bestDistance`): `√s < √s' ↔ s < s'` for the
nonnegative sums of squares, `√s < +∞` true, `+∞ < d` false. -/
def distLtDist (d e : Option ℚ) : Bool :=
  match d, e with
  | none, _ => false
  | some _, none => true
  | some s, some s' => decide (s < s')

/-- One iteration of the loop of `findStudentByFaceDescriptor`: skip a
record with no `faceDescriptor`; otherwise replace the running best match
when `distance < threshold && distance < bestDistance`. -/
def scanStep (q : List ℚ) (t : ℚ) (acc : Option Student × Option ℚ)
    (s : Student) : Option Student × Option ℚ :=
  match s.faceDescriptor with
  | none => acc
  | some fd =>
    let d := calculateEuclideanDistance q fd
    if distLtConst d t && distLtDist d acc.2 then (some s, d) else acc

/-- `findStudentByFaceDescriptor(descriptor, threshold)` (the source's
default threshold is `0.6`): linear scan over `this.students.values()`
starting from `bestMatch = null`, `bestDistance = +∞`. -/
def findStudentByFaceDescriptor (db : StudentDatabase) (q : List ℚ) (t : ℚ) :
    Option Student :=
  ((mapValues db.students).foldl (scanStep q t) (none, none)).1

/-- `str.split(sep)[0]` for a JavaScript string split. -/
def jsSplitHead (s sep : String) : String :=
  (s.splitOn sep).headD ""

/-- `markAttendance(studentId, method, confidence?)`: appends a record with
`id = Date.now().toString()`, `date = now.toISOString().split("T")[0]`,
`time = now.toTimeString().split(" ")[0]` and `status = "present"`.  The
source performs no check that `studentId` names an existing student. -/
def markAttendance (db : StudentDatabase) (studentId : String)
    (method : AttendanceMethod) (confidence : Option ℚ) (now : JSDate) :
    AttendanceRecord × StudentDatabase :=
  let record : AttendanceRecord :=
    { id := toString now.millis, studentId := studentId,
      date := jsSplitHead now.isoString "T",
      time := jsSplitHead now.timeString " ",
      method := method, confidence := confidence,
      status := AttendanceStatus.present }
  (record, { db with attendance := db.attendance ++ [record] })

/-- `getAttendanceByDate`: the attendance records whose `date` equals the
argument, in insertion order. -/
def getAttendanceByDate (db : StudentDatabase) (date : String) :
    List AttendanceRecord :=
  db.attendance.filter (fun r => r.date == date)

/-- The result record of `getAttendanceStats`. -/
structure AttendanceStats where
  total : Int
  present : Int
  absent : Int
  percentage : ℚ
  deriving DecidableEq, Repr

/-- `getAttendanceStats(date?)`: `today` is
`new Date().toISOString().split("T")[0]` at the call instant; the source's
`date || today` makes both an omitted argument and the empty string fall
back to `today`. -/
def jsDateFallback (date : Option String) (today : String) : String :=
  match date with
  | none => today
  | some s => if s = "" then today else s

/-- `getAttendanceStats(date?)` (continued): the stats record itself. -/
def getAttendanceStats (db : StudentDatabase) (date : Option String)
    (today : String) : AttendanceStats :=
  let targetDate := jsDateFallback date today
  let todayAttendance := getAttendanceByDate db targetDate
  let totalStudents : Int := (db.students.length : Int)
  let presentStudents : Int := (todayAttendance.length : Int)
  { total := totalStudents, present := presentStudents,
    absent := totalStudents - presentStudents,
    percentage :=
      if 0 < totalStudents then
        ((presentStudents : ℚ) / (totalStudents : ℚ)) * 100
      else 0 }

/-- Parsed JSON values (`JSON.parse` results / `JSON.stringify` inputs). -/
inductive Json where
  | null : Json
  | bool : Bool → Json
  | num : ℚ → Json
  | str : String → Json
  | arr : List Json → Json
  | obj : List (String × Json) → Json

/-- JavaScript property access `value.key` on a parsed JSON value:
`undefined` (`none`) unless the value is an object with that key. -/
def jsGetField : Json → String → Option Json
  | Json.obj fields, key => ((fields.find? (fun p => p.1 == key)).map (fun p => p.2))
  | _, _ => none

/-- `QRScannerService.generateStudentQR(studentId, studentName)`: the JSON
document `JSON.stringify` serialises (`timestampIso` is
`new Date().toISOString()` at the call instant). -/
def generateStudentQR (studentId studentName timestampIso : String) : Json :=
  Json.obj [("type", Json.str "student_id"),
            ("student_id", Json.str studentId),
            ("student_name", Json.str studentName),
            ("timestamp", Json.str timestampIso)]

/-- `QRScannerService.parseQRData(qrData)` on the `JSON.parse` result of its
argument (`none` = the argument was not valid JSON, in which case the
source's `catch` returns `null`): returns the parsed value itself when its
`type` property is `"student_id"` or `"attendance_session"`, else `null`. -/
def parseQRData (parsed : Option Json) : Option Json :=
  match parsed with
  | none => none
  | some p =>
    match jsGetField p "type" with
    | some (Json.str t) =>
      if t = "student_id" ∨ t = "attendance_session" then some p else none
    | _ => none

/-- The `type` discriminator of a parsed QR payload, when it is a string. -/
def qrTypeOf (p : Json) : Option String :=
  match jsGetField p "type" with
  | some (Json.str t) => some t
  | _ => none

/-- The qualifying distance of the scan of `findStudentByFaceDescriptor`:
`some` (squared) distance when the record has a descriptor whose distance
to the query passes the `distance < threshold` test, else `none`. -/
def qualDist (q : List ℚ) (t : ℚ) (s : Student) : Option ℚ :=
  match s.faceDescriptor with
  | none => none
  | some fd =>
    let d := calculateEuclideanDistance q fd
    if distLtConst d t then d else none

/-- The number of live records bearing a given roll number. -/
def countRoll (db : StudentDatabase) (rn : String) : Nat :=
  (mapValues db.students).countP (fun s => s.rollNumber == rn)

/-- A concrete instant (used by concrete counterexamples and witnesses). -/
def date0 : JSDate :=
  { millis := 100, isoString := "2026-10-11T09:00:00.000Z",
    timeString := "09:00:00 GMT+0000 (Coordinated Universal Time)" }

/-- A later concrete instant. -/
def date1 : JSDate :=
  { millis := 200, isoString := "2026-10-11T09:00:01.000Z",
    timeString := "09:00:01 GMT+0000 (Coordinated Universal Time)" }

/-- An `addStudent` input reusing the pre-loaded roll number `"CS001"`. -/
def inputCS001 : StudentInput :=
  { name := "Johnny Impostor", rollNumber := "CS001", email := none,
    classLabel := none, sectionLabel := none, faceImageUrl := none,
    faceDescriptor := none }

/-! ## Association-list (JavaScript `Map`) lemmas -/

lemma setKeyBeq (k k' : String) (v : Student) (p : String × Student) :
    ((if p.1 == k then (k, v) else p).1 == k') = (p.1 == k') := by
  cases hp : (p.1 == k) with
  | true =>
    have hpk : p.1 = k := by simpa using hp
    simp [hpk]
  | false => simp

lemma find?_setmap (m : List (String × Student)) (k k' : String) (v : Student) :
    (m.map (fun p => if p.1 == k then (k, v) else p)).find? (fun p => p.1 == k')
      = (m.find? (fun p => p.1 == k')).map
          (fun p => if p.1 == k then (k, v) else p) := by
  rw [List.find?_map]
  have hpred : ((fun p : String × Student => p.1 == k')
        ∘ fun p : String × Student => if p.1 == k then (k, v) else p)
      = (fun p : String × Student => p.1 == k') := by
    funext p
    exact setKeyBeq k k' v p
  rw [hpred]

lemma mapGet_eq_none_iff (m : List (String × Student)) (k : String) :
    mapGet m k = none ↔ m.any (fun p => p.1 == k) = false := by
  unfold mapGet
  rw [Option.map_eq_none', List.find?_eq_none]
  constructor
  · intro h
    rw [← Bool.not_eq_true, List.any_eq_true]
    rintro ⟨x, hx, hpx⟩
    exact h x hx hpx
  · intro h x hx hpx
    rw [← Bool.not_eq_true, List.any_eq_true] at h
    exact h ⟨x, hx, hpx⟩

lemma mapSet_fresh (m : List (String × Student)) (k : String) (v : Student)
    (h : mapGet m k = none) : mapSet m k v = m ++ [(k, v)] := by
  unfold mapSet
  rw [if_neg]
  rw [mapGet_eq_none_iff] at h
  simp [h]

lemma mapGet_mapSet_self (m : List (String × Student)) (k : String) (v : Student) :
    mapGet (mapSet m k v) k = some v := by
  unfold mapSet
  by_cases hm : m.any (fun p => p.1 == k) = true
  · rw [if_pos hm]
    unfold mapGet
    rw [find?_setmap]
    obtain ⟨x, hx, hpx⟩ := List.any_eq_true.mp hm
    have hfind : (m.find? (fun p => p.1 == k)).isSome :=
      List.find?_isSome.mpr ⟨x, hx, hpx⟩
    obtain ⟨y, hy⟩ := Option.isSome_iff_exists.mp hfind
    have hpy := List.find?_some hy
    have hpy2 : (y.1 == k) = true := hpy
    rw [hy, Option.map_some', Option.map_some', if_pos hpy2]
  · rw [if_neg hm]
    unfold mapGet
    have hnone : m.find? (fun p => p.1 == k) = none := by
      rw [List.find?_eq_none]
      intro x hx hpx
      exact hm (List.any_eq_true.mpr ⟨x, hx, hpx⟩)
    have hsingle : ([((k, v) : String × Student)].find? (fun p => p.1 == k))
        = some (k, v) := by
      have : ((((k, v) : String × Student)).1 == k) = true := by simp
      simp [List.find?_cons, this]
    rw [List.find?_append, hnone, Option.none_or, hsingle, Option.map_some']

lemma mapGet_mapSet_ne (m : List (String × Student)) (k k' : String) (v : Student)
    (h : k' ≠ k) : mapGet (mapSet m k v) k' = mapGet m k' := by
  unfold mapSet
  by_cases hm : m.any (fun p => p.1 == k) = true
  · rw [if_pos hm]
    unfold mapGet
    rw [find?_setmap]
    cases hy : m.find? (fun p => p.1 == k') with
    | none => rfl
    | some y =>
      have hpy := List.find?_some hy
      have hpy2 : (y.1 == k') = true := hpy
      have hyk : ¬ ((y.1 == k) = true) := by
        have hy1 : y.1 = k' := by simpa using hpy2
        rw [hy1]
        simp only [beq_iff_eq]
        exact h
      rw [Option.map_some', Option.map_some', if_neg hyk]
      rfl
  · rw [if_neg hm]
    unfold mapGet
    have hlast : ([((k, v) : String × Student)].find? (fun p => p.1 == k')) = none := by
      rw [List.find?_eq_none]
      intro x hx hpx
      rw [List.mem_singleton] at hx
      rw [hx] at hpx
      have hkk : k = k' := by simpa using hpx
      exact h hkk.symm
    rw [List.find?_append, hlast, Option.or_none]

/-! ## C10: the freshly constructed store is pre-loaded with two sample records -/

/-- C10: a freshly constructed store already holds the two pre-loaded sample
records, with ids `"1"`/`"2"` and roll numbers `"CS001"`/`"CS002"`;
`getAllStudents` on the new store returns exactly these two records, roll
number `"CS001"` is already taken (`getStudentByRollNumber` finds the sample
record), and an `addStudent` call supplying roll number `"CS001"` leaves the
store with two live records bearing that roll number. -/
theorem freshDB_preloaded_sample_records (now : JSDate) :
    getAllStudents (freshDB now) = [sampleStudent1 now, sampleStudent2 now]
    ∧ (sampleStudent1 now).id = "1" ∧ (sampleStudent2 now).id = "2"
    ∧ (sampleStudent1 now).rollNumber = "CS001"
    ∧ (sampleStudent2 now).rollNumber = "CS002"
    ∧ (freshDB now).attendance = []
    ∧ getStudentByRollNumber (freshDB now) "CS001" = some (sampleStudent1 now)
    ∧ countRoll (freshDB now) "CS001" = 1
    ∧ countRoll (addStudent (freshDB now) inputCS001 date1).2 "CS001" = 2 :=
  ⟨rfl, rfl, rfl, rfl, rfl, rfl, rfl, rfl, rfl⟩

/-! ## C3 and C9: `markAttendance` -/

/-- C3 (counterexample): `markAttendance` happily creates an event for the
studentId `"999"` although no student with that id exists in the store, so
the claimed invariant "an event always references a studentId that exists at
creation time" fails on the code. -/
theorem markAttendance_ghost_student_cex :
    mapGet (freshDB date0).students "999" = none
    ∧ (markAttendance (freshDB date0) "999" AttendanceMethod.qr none date1).1.studentId
        = "999"
    ∧ (markAttendance (freshDB date0) "999" AttendanceMethod.qr none date1).2.attendance
        = [(markAttendance (freshDB date0) "999" AttendanceMethod.qr none date1).1] :=
  ⟨rfl, rfl, rfl⟩

/-- C3 (amended): `markAttendance` performs no existence check: even for a
`studentId` absent from the student collection it creates and appends an
event referencing exactly that id. -/
theorem markAttendance_no_existence_check (db : StudentDatabase) (sid : String)
    (m : AttendanceMethod) (c : Option ℚ) (now : JSDate)
    (_h : mapGet db.students sid = none) :
    (markAttendance db sid m c now).1.studentId = sid
    ∧ (markAttendance db sid m c now).2.attendance
        = db.attendance ++ [(markAttendance db sid m c now).1] :=
  ⟨rfl, rfl⟩

/-- C3 witness: the amended theorem at the concrete ghost id `"999"`. -/
theorem markAttendance_no_existence_check_witness :
    (markAttendance (freshDB date0) "999" AttendanceMethod.qr none date1).1.studentId
        = "999"
    ∧ (markAttendance (freshDB date0) "999" AttendanceMethod.qr none date1).2.attendance
        = (freshDB date0).attendance
            ++ [(markAttendance (freshDB date0) "999" AttendanceMethod.qr none date1).1] :=
  markAttendance_no_existence_check (freshDB date0) "999" AttendanceMethod.qr none date1
    (by decide)

/-- C9: `markAttendance` appends exactly one new event with
`status = "present"`, the given studentId, method and confidence, `date` the
calendar-date component of the current instant (`toISOString().split("T")[0]`)
and `time` its time-of-day component (`toTimeString().split(" ")[0]`); the
previously recorded events are all still there, unmodified, in order. -/
theorem markAttendance_creates_present_event (db : StudentDatabase) (sid : String)
    (m : AttendanceMethod) (c : Option ℚ) (now : JSDate) :
    (markAttendance db sid m c now).2.attendance
        = db.attendance ++ [(markAttendance db sid m c now).1]
    ∧ (markAttendance db sid m c now).1.status = AttendanceStatus.present
    ∧ (markAttendance db sid m c now).1.studentId = sid
    ∧ (markAttendance db sid m c now).1.method = m
    ∧ (markAttendance db sid m c now).1.confidence = c
    ∧ (markAttendance db sid m c now).1.date = (now.isoString.splitOn "T").headD ""
    ∧ (markAttendance db sid m c now).1.time = (now.timeString.splitOn " ").headD ""
    ∧ (markAttendance db sid m c now).2.students = db.students :=
  ⟨rfl, rfl, rfl, rfl, rfl, rfl, rfl, rfl⟩

/-! ## C8: QR payload round-trip and discriminator rejection -/

/-- C8: encoding a student identity payload and then decoding it yields the
structurally identical record, whose `type` discriminator is
`"student_id"`; and decoding any payload whose `type` discriminator is
neither `"student_id"` nor `"attendance_session"` — or which is not valid
JSON at all (`parsed = none`) — returns `null` rather than raising. -/
theorem generateStudentQR_parse_roundtrip (sid sname ts : String) (p : Json)
    (h1 : qrTypeOf p ≠ some "student_id")
    (h2 : qrTypeOf p ≠ some "attendance_session") :
    parseQRData (some (generateStudentQR sid sname ts))
        = some (generateStudentQR sid sname ts)
    ∧ qrTypeOf (generateStudentQR sid sname ts) = some "student_id"
    ∧ parseQRData (some p) = none
    ∧ parseQRData none = none := by
  refine ⟨rfl, rfl, ?_, rfl⟩
  have h1' := h1
  have h2' := h2
  unfold qrTypeOf at h1' h2'
  cases hj : jsGetField p "type" with
  | none => simp [parseQRData, hj]
  | some j =>
    rw [hj] at h1' h2'
    cases j with
    | str t =>
      have ht1 : t ≠ "student_id" := by simpa using h1'
      have ht2 : t ≠ "attendance_session" := by simpa using h2'
      simp [parseQRData, hj, ht1, ht2]
    | null => simp [parseQRData, hj]
    | bool b => simp [parseQRData, hj]
    | num q => simp [parseQRData, hj]
    | arr xs => simp [parseQRData, hj]
    | obj fs => simp [parseQRData, hj]

/-- C8 witness: the round-trip at a concrete student payload, and rejection
of a concrete payload with the unrecognised discriminator `"bogus"`. -/
theorem generateStudentQR_parse_roundtrip_witness :
    parseQRData (some (generateStudentQR "S1" "Ann" "2026-10-11T09:00:00.000Z"))
        = some (generateStudentQR "S1" "Ann" "2026-10-11T09:00:00.000Z")
    ∧ qrTypeOf (generateStudentQR "S1" "Ann" "2026-10-11T09:00:00.000Z")
        = some "student_id"
    ∧ parseQRData (some (Json.obj [("type", Json.str "bogus")])) = none
    ∧ parseQRData none = none :=
  generateStudentQR_parse_roundtrip "S1" "Ann" "2026-10-11T09:00:00.000Z"
    (Json.obj [("type", Json.str "bogus")])
    (by decide) (by decide)

/-! ## C5: `getAttendanceStats` formula -/

/-- C5: the stats record has `total` the current number of student records,
`present` the number of attendance events whose date equals the target date
(the argument, defaulting to `today` when omitted), `absent = total -
present`, and `percentage = present / total * 100` with `percentage = 0`
when `total = 0` (no division-by-zero fault). -/
theorem getAttendanceStats_formula (db : StudentDatabase) (date : Option String)
    (today : String) :
    (getAttendanceStats db date today).total = ((getAllStudents db).length : Int)
    ∧ (getAttendanceStats db date today).present
        = ((db.attendance.filter
            (fun r => r.date == jsDateFallback date today)).length : Int)
    ∧ (date = none → jsDateFallback date today = today)
    ∧ (getAttendanceStats db date today).absent
        = (getAttendanceStats db date today).total
            - (getAttendanceStats db date today).present
    ∧ ((getAttendanceStats db date today).total = 0 →
        (getAttendanceStats db date today).percentage = 0)
    ∧ ((getAttendanceStats db date today).total ≠ 0 →
        (getAttendanceStats db date today).percentage
            * ((getAttendanceStats db date today).total : ℚ)
          = ((getAttendanceStats db date today).present : ℚ) * 100) := by
  refine ⟨?_, rfl, ?_, rfl, ?_, ?_⟩
  · show ((db.students.length : Int)) = ((getAllStudents db).length : Int)
    simp [getAllStudents, mapValues]
  · intro hd
    rw [hd]
    rfl
  · intro h0
    have h0' : (db.students.length : Int) = 0 := h0
    exact if_neg (by rw [h0']; exact lt_irrefl 0)
  · intro hne
    have hne' : (db.students.length : Int) ≠ 0 := hne
    have hpos : 0 < (db.students.length : Int) := by
      rcases Nat.eq_zero_or_pos db.students.length with h0 | hp
      · exact absurd (by exact_mod_cast h0) hne'
      · exact_mod_cast hp
    have hperc : (getAttendanceStats db date today).percentage
        = ((((getAttendanceByDate db (jsDateFallback date today)).length : Int) : ℚ)
            / ((db.students.length : Int) : ℚ)) * 100 := if_pos hpos
    have htot : (((getAttendanceStats db date today).total : Int) : ℚ)
        = ((db.students.length : Int) : ℚ) := rfl
    have hpres : (((getAttendanceStats db date today).present : Int) : ℚ)
        = (((getAttendanceByDate db (jsDateFallback date today)).length : Int) : ℚ) := rfl
    rw [hperc, htot, hpres]
    have hq : ((db.students.length : Int) : ℚ) ≠ 0 := by exact_mod_cast hne'
    field_simp
    have hq2 : ((db.students.length : ℚ)) ≠ 0 := by exact_mod_cast hne'
    rw [mul_div_assoc, div_self hq2, mul_one]

/-! ## C4: `updateStudent` -/

/-- The `Partial<Student>` value `{ id: "99" }`. -/
def updateSettingId99 : StudentUpdate := { emptyUpdate with id := some "99" }

/-- C4 (counterexample): `updateStudent` does change the record's `id` when
the partial update supplies one — `Partial<Student>` includes `id`, and the
object spread overwrites it — so "never changes the record's id" fails. -/
theorem updateStudent_changes_id_cex :
    ((updateStudent (freshDB date0) "1" updateSettingId99 date1).1.map Student.id)
        = some "99"
    ∧ ((updateStudent (freshDB date0) "1" updateSettingId99 date1).1.map Student.id)
        ≠ some "1" :=
  ⟨by decide, by decide⟩

/-- C4 (amended): for an existing id, `updateStudent` overwrites exactly the
supplied fields — *including* `id` when the caller supplies one (the record's
`id` field then diverges from its map key) — refreshes `updatedAt` to the
call instant, stores the result under the original key, and leaves every
other record and the attendance log untouched; for an id not present it
returns `null` (`NotFound`) and the store is unchanged. -/
theorem updateStudent_frame (db : StudentDatabase) (id : String)
    (u : StudentUpdate) (now : JSDate) :
    (mapGet db.students id = none → updateStudent db id u now = (none, db))
    ∧ (∀ s, mapGet db.students id = some s →
        ∃ s', (updateStudent db id u now).1 = some s'
          ∧ s'.updatedAt = now
          ∧ (u.id = none → s'.id = s.id)
          ∧ (∀ v, u.id = some v → s'.id = v)
          ∧ (u.name = none → s'.name = s.name)
          ∧ (∀ v, u.name = some v → s'.name = v)
          ∧ (u.rollNumber = none → s'.rollNumber = s.rollNumber)
          ∧ (∀ v, u.rollNumber = some v → s'.rollNumber = v)
          ∧ (u.email = none → s'.email = s.email)
          ∧ (∀ v, u.email = some v → s'.email = v)
          ∧ (u.classLabel = none → s'.classLabel = s.classLabel)
          ∧ (∀ v, u.classLabel = some v → s'.classLabel = v)
          ∧ (u.sectionLabel = none → s'.sectionLabel = s.sectionLabel)
          ∧ (∀ v, u.sectionLabel = some v → s'.sectionLabel = v)
          ∧ (u.faceImageUrl = none → s'.faceImageUrl = s.faceImageUrl)
          ∧ (∀ v, u.faceImageUrl = some v → s'.faceImageUrl = v)
          ∧ (u.faceDescriptor = none → s'.faceDescriptor = s.faceDescriptor)
          ∧ (∀ v, u.faceDescriptor = some v → s'.faceDescriptor = v)
          ∧ (u.createdAt = none → s'.createdAt = s.createdAt)
          ∧ (∀ v, u.createdAt = some v → s'.createdAt = v)
          ∧ mapGet (updateStudent db id u now).2.students id = some s'
          ∧ (∀ k, k ≠ id → mapGet (updateStudent db id u now).2.students k
              = mapGet db.students k)
          ∧ (updateStudent db id u now).2.attendance = db.attendance) := by
  constructor
  · intro hnone
    unfold updateStudent
    rw [hnone]
  · intro s hs
    refine ⟨{ spreadUpdate s u with updatedAt := now }, ?_, rfl, ?_, ?_, ?_, ?_, ?_, ?_,
      ?_, ?_, ?_, ?_, ?_, ?_, ?_, ?_, ?_, ?_, ?_, ?_, ?_, ?_, ?_⟩
    · unfold updateStudent
      rw [hs]
    · intro hu; simp [spreadUpdate, hu]
    · intro v hu; simp [spreadUpdate, hu]
    · intro hu; simp [spreadUpdate, hu]
    · intro v hu; simp [spreadUpdate, hu]
    · intro hu; simp [spreadUpdate, hu]
    · intro v hu; simp [spreadUpdate, hu]
    · intro hu; simp [spreadUpdate, hu]
    · intro v hu; simp [spreadUpdate, hu]
    · intro hu; simp [spreadUpdate, hu]
    · intro v hu; simp [spreadUpdate, hu]
    · intro hu; simp [spreadUpdate, hu]
    · intro v hu; simp [spreadUpdate, hu]
    · intro hu; simp [spreadUpdate, hu]
    · intro v hu; simp [spreadUpdate, hu]
    · intro hu; simp [spreadUpdate, hu]
    · intro v hu; simp [spreadUpdate, hu]
    · intro hu; simp [spreadUpdate, hu]
    · intro v hu; simp [spreadUpdate, hu]
    · unfold updateStudent
      rw [hs]
      exact mapGet_mapSet_self db.students id _
    · intro k hk
      unfold updateStudent
      rw [hs]
      exact mapGet_mapSet_ne db.students id k _ hk
    · unfold updateStudent
      rw [hs]

/-! ## C1: no roll-number uniqueness enforcement in `addStudent` -/

/-- C1 (counterexample): on a fresh store (which already holds roll number
`"CS001"`), `addStudent` with roll number `"CS001"` does not fail: it
mutates the student collection and leaves the store with two live records
sharing roll number `"CS001"`. -/
theorem addStudent_duplicate_roll_cex :
    countRoll (addStudent (freshDB date0) inputCS001 date1).2 "CS001" = 2
    ∧ (addStudent (freshDB date0) inputCS001 date1).2.students
        ≠ (freshDB date0).students :=
  ⟨by decide, by decide⟩

/-- C1 (amended): `addStudent` performs no roll-number uniqueness check and
has no `DuplicateKey` failure: whenever the assigned id
(`Date.now().toString()`) is not already a key of the map, the call appends
a new live record carrying the supplied roll number — so an add whose roll
number is already present leaves two live records sharing it (the count of
records with that roll number increases by one).  The attendance log is
unchanged. -/
theorem addStudent_no_uniqueness_check (db : StudentDatabase)
    (input : StudentInput) (now : JSDate)
    (h : mapGet db.students (toString now.millis) = none) :
    getAllStudents (addStudent db input now).2
        = getAllStudents db ++ [(addStudent db input now).1]
    ∧ (addStudent db input now).1.rollNumber = input.rollNumber
    ∧ (addStudent db input now).2.attendance = db.attendance
    ∧ countRoll (addStudent db input now).2 input.rollNumber
        = countRoll db input.rollNumber + 1 := by
  have happ : (addStudent db input now).2.students
      = db.students ++ [(toString now.millis, (addStudent db input now).1)] := by
    unfold addStudent
    exact mapSet_fresh db.students _ _ h
  have hvals : getAllStudents (addStudent db input now).2
      = getAllStudents db ++ [(addStudent db input now).1] := by
    unfold getAllStudents mapValues
    rw [happ, List.map_append]
    rfl
  refine ⟨hvals, rfl, rfl, ?_⟩
  show ((getAllStudents (addStudent db input now).2).countP
      (fun s => s.rollNumber == input.rollNumber))
    = ((getAllStudents db).countP (fun s => s.rollNumber == input.rollNumber)) + 1
  rw [hvals, List.countP_append]
  have hone : ([(addStudent db input now).1].countP
      (fun s => s.rollNumber == input.rollNumber)) = 1 := by
    have hr : ((addStudent db input now).1.rollNumber == input.rollNumber) = true := by
      simp [addStudent]
    simp [List.countP_cons, hr]
  rw [hone]

/-- C1 witness: the amended theorem at the fresh store and the conflicting
roll number `"CS001"`. -/
theorem addStudent_no_uniqueness_check_witness :
    getAllStudents (addStudent (freshDB date0) inputCS001 date1).2
        = getAllStudents (freshDB date0)
            ++ [(addStudent (freshDB date0) inputCS001 date1).1]
    ∧ (addStudent (freshDB date0) inputCS001 date1).1.rollNumber
        = inputCS001.rollNumber
    ∧ (addStudent (freshDB date0) inputCS001 date1).2.attendance
        = (freshDB date0).attendance
    ∧ countRoll (addStudent (freshDB date0) inputCS001 date1).2
          inputCS001.rollNumber
        = countRoll (freshDB date0) inputCS001.rollNumber + 1 :=
  addStudent_no_uniqueness_check (freshDB date0) inputCS001 date1 (by decide)

/-! ## C6: id assignment by `Date.now().toString()` -/

/-- An `addStudent` input with a fresh roll number (used by C6). -/
def inputAlice : StudentInput :=
  { name := "Alice", rollNumber := "CS003", email := none, classLabel := none,
    sectionLabel := none, faceImageUrl := none, faceDescriptor := none }

/-- A second `addStudent` input with a fresh roll number (used by C6). -/
def inputBob : StudentInput :=
  { name := "Bob", rollNumber := "CS004", email := none, classLabel := none,
    sectionLabel := none, faceImageUrl := none, faceDescriptor := none }

/-- C6 (counterexample): two `addStudent` calls in the same millisecond
(`Date.now()` returns the same value) assign the *same* id, and the second
call silently replaces the first record: after both calls the store still
holds only three records and Alice's record is gone. -/
theorem addStudent_same_millisecond_cex :
    (addStudent (freshDB date0) inputAlice date1).1.id
        = (addStudent (addStudent (freshDB date0) inputAlice date1).2
            inputBob date1).1.id
    ∧ getAllStudents (addStudent (addStudent (freshDB date0) inputAlice date1).2
          inputBob date1).2
        = [sampleStudent1 date0, sampleStudent2 date0,
           (addStudent (addStudent (freshDB date0) inputAlice date1).2
             inputBob date1).1]
    ∧ (addStudent (freshDB date0) inputAlice date1).1
        ∉ getAllStudents (addStudent (addStudent (freshDB date0) inputAlice date1).2
            inputBob date1).2 :=
  ⟨rfl, by decide, by decide⟩

/-- C6 (amended): `addStudent` ids are distinct and no record is silently
replaced *provided* the two calls' `Date.now()` values render to distinct
strings and neither collides with a key already in the map; two calls within
the same millisecond violate this (see the counterexample). -/
theorem addStudent_distinct_ids (db : StudentDatabase)
    (in1 in2 : StudentInput) (n1 n2 : JSDate)
    (h1 : mapGet db.students (toString n1.millis) = none)
    (h2 : mapGet db.students (toString n2.millis) = none)
    (h3 : toString n1.millis ≠ toString n2.millis) :
    (addStudent db in1 n1).1.id
        ≠ (addStudent (addStudent db in1 n1).2 in2 n2).1.id
    ∧ getAllStudents (addStudent (addStudent db in1 n1).2 in2 n2).2
        = getAllStudents db
            ++ [(addStudent db in1 n1).1,
                (addStudent (addStudent db in1 n1).2 in2 n2).1] := by
  constructor
  · exact h3
  · have hset1 : (addStudent db in1 n1).2.students
        = db.students ++ [(toString n1.millis, (addStudent db in1 n1).1)] := by
      unfold addStudent
      exact mapSet_fresh db.students _ _ h1
    have h2' : mapGet (addStudent db in1 n1).2.students (toString n2.millis) = none := by
      unfold addStudent
      rw [mapGet_mapSet_ne db.students _ _ _ (fun he => h3 he.symm)]
      exact h2
    have hset2 : (addStudent (addStudent db in1 n1).2 in2 n2).2.students
        = (addStudent db in1 n1).2.students
            ++ [(toString n2.millis,
                 (addStudent (addStudent db in1 n1).2 in2 n2).1)] := by
      unfold addStudent
      exact mapSet_fresh _ _ _ h2'
    unfold getAllStudents mapValues
    rw [hset2, hset1, List.map_append, List.map_append]
    simp

/-- C6 witness: the amended theorem at two adds one millisecond apart on the
fresh store. -/
theorem addStudent_distinct_ids_witness :
    (addStudent (freshDB date0) inputAlice date0).1.id
        ≠ (addStudent (addStudent (freshDB date0) inputAlice date0).2
            inputBob date1).1.id
    ∧ getAllStudents (addStudent (addStudent (freshDB date0) inputAlice date0).2
          inputBob date1).2
        = getAllStudents (freshDB date0)
            ++ [(addStudent (freshDB date0) inputAlice date0).1,
                (addStudent (addStudent (freshDB date0) inputAlice date0).2
                  inputBob date1).1] :=
  addStudent_distinct_ids (freshDB date0) inputAlice inputBob date0 date1
    (by decide) (by decide) (by decide)

/-! ## The descriptor-matching scan (C2, C7) -/

lemma scanStep_eq (q : List ℚ) (t : ℚ) (acc : Option Student × Option ℚ)
    (s : Student) :
    scanStep q t acc s
      = match qualDist q t s with
        | none => acc
        | some x => if distLtDist (some x) acc.2 then (some s, some x) else acc := by
  unfold scanStep qualDist
  cases hfd : s.faceDescriptor with
  | none => rfl
  | some fd =>
    simp only []
    cases hd : calculateEuclideanDistance q fd with
    | none => simp [hd, distLtConst]
    | some y =>
      cases hc : distLtConst (some y) t with
      | false => simp [hd, hc]
      | true => simp [hd, hc]

lemma qualDist_some_intro (q : List ℚ) (t : ℚ) (s : Student) (fd : List ℚ)
    (hfd : s.faceDescriptor = some fd) (hlen : fd.length = q.length)
    (ht : 0 < t) (hd : distanceSq q fd < t ^ 2) :
    qualDist q t s = some (distanceSq q fd) := by
  unfold qualDist
  rw [hfd]
  simp only []
  have hcalc : calculateEuclideanDistance q fd = some (distanceSq q fd) := by
    unfold calculateEuclideanDistance
    exact if_neg (fun hne => hne hlen.symm)
  rw [hcalc]
  have hc : distLtConst (some (distanceSq q fd)) t = true := by
    simp [distLtConst, ht, hd]
  simp [hc]

lemma qualDist_some_elim {q : List ℚ} {t : ℚ} {s : Student} {x : ℚ}
    (h : qualDist q t s = some x) :
    ∃ fd, s.faceDescriptor = some fd ∧ fd.length = q.length ∧ 0 < t
      ∧ x = distanceSq q fd ∧ distanceSq q fd < t ^ 2 := by
  unfold qualDist at h
  cases hfd : s.faceDescriptor with
  | none => rw [hfd] at h; cases h
  | some fd =>
    rw [hfd] at h
    simp only [] at h
    unfold calculateEuclideanDistance at h
    by_cases hl : q.length ≠ fd.length
    · rw [if_pos hl] at h
      simp [distLtConst] at h
    · rw [if_neg hl] at h
      cases hc : distLtConst (some (distanceSq q fd)) t with
      | false => rw [hc] at h; simp at h
      | true =>
        rw [hc] at h
        simp at h
        have hcc : 0 < t ∧ distanceSq q fd < t ^ 2 := by
          simpa [distLtConst] using hc
        exact ⟨fd, rfl, (not_ne_iff.mp hl).symm, hcc.1, h.symm, hcc.2⟩

/-- Characterisation of the scan of `findStudentByFaceDescriptor` over a list
of records: either nothing qualifies (no record passes the
`distance < threshold` test) and the running best stays `(null, +∞)`, or the
final best is the *first* record in iteration order achieving the minimal
qualifying (squared) distance: every earlier qualifying record is strictly
farther, every later one at least as far. -/
lemma scanLoop_spec (q : List ℚ) (t : ℚ) (l : List Student) :
    (l.foldl (scanStep q t) (none, none) = (none, none)
      ∧ ∀ s ∈ l, qualDist q t s = none)
    ∨ (∃ r x l1 l2,
        l.foldl (scanStep q t) (none, none) = (some r, some x)
        ∧ l = l1 ++ r :: l2
        ∧ qualDist q t r = some x
        ∧ (∀ s ∈ l1, ∀ z, qualDist q t s = some z → x < z)
        ∧ (∀ s ∈ l2, ∀ z, qualDist q t s = some z → x ≤ z)) := by
  induction l using List.reverseRecOn with
  | nil => exact Or.inl ⟨rfl, by simp⟩
  | append_singleton l a ih =>
    have hstep : (l ++ [a]).foldl (scanStep q t) (none, none)
        = scanStep q t (l.foldl (scanStep q t) (none, none)) a := by
      simp [List.foldl_append]
    rcases ih with ⟨hfold, hall⟩ | ⟨r, x, l1, l2, hfold, hsplit, hqr, hl1, hl2⟩
    · cases hqa : qualDist q t a with
      | none =>
        left
        constructor
        · rw [hstep, hfold, scanStep_eq, hqa]
        · intro s hs
          rcases List.mem_append.mp hs with hs | hs
          · exact hall s hs
          · rw [List.mem_singleton.mp hs]
            exact hqa
      | some y =>
        right
        refine ⟨a, y, l, [], ?_, rfl, hqa, ?_, by simp⟩
        · rw [hstep, hfold, scanStep_eq, hqa]
          rfl
        · intro s hs z hz
          rw [hall s hs] at hz
          cases hz
    · cases hqa : qualDist q t a with
      | none =>
        right
        refine ⟨r, x, l1, l2 ++ [a], ?_, by rw [hsplit]; simp, hqr, hl1, ?_⟩
        · rw [hstep, hfold, scanStep_eq, hqa]
        · intro s hs z hz
          rcases List.mem_append.mp hs with hs | hs
          · exact hl2 s hs z hz
          · rw [List.mem_singleton.mp hs] at hz
            rw [hqa] at hz
            cases hz
      | some y =>
        by_cases hyx : y < x
        · right
          refine ⟨a, y, l, [], ?_, rfl, hqa, ?_, by simp⟩
          · rw [hstep, hfold, scanStep_eq, hqa]
            have hb : distLtDist (some y) (some x) = true := by
              simp [distLtDist, hyx]
            simp [hb]
          · intro s hs z hz
            rw [hsplit] at hs
            rcases List.mem_append.mp hs with hs | hs
            · exact lt_trans hyx (hl1 s hs z hz)
            · rcases List.mem_cons.mp hs with hs | hs
              · rw [hs] at hz
                rw [hqr] at hz
                cases hz
                exact hyx
              · exact lt_of_lt_of_le hyx (hl2 s hs z hz)
        · right
          refine ⟨r, x, l1, l2 ++ [a], ?_, by rw [hsplit]; simp, hqr, hl1, ?_⟩
          · rw [hstep, hfold, scanStep_eq, hqa]
            have hb : distLtDist (some y) (some x) = false := by
              simp [distLtDist, hyx]
            simp [hb]
          · intro s hs z hz
            rcases List.mem_append.mp hs with hs | hs
            · exact hl2 s hs z hz
            · rw [List.mem_singleton.mp hs] at hz
              rw [hqa] at hz
              cases hz
              exact not_lt.mp hyx

/-- C2: `findStudentByFaceDescriptor` returns the stored record whose
descriptor has the smallest Euclidean distance to the query strictly below
the threshold, considering only records possessing a `faceDescriptor` of the
same length as the query (distances are compared through their squares, see
the header comment; "strictly below `t`" is `0 < t ∧ distanceSq < t ^ 2`).
Ties go to the first record in insertion order: every earlier qualifying
candidate is strictly farther, every later one at least as far.  When no
candidate qualifies the result is "no match" (`none`), and a record with no
`faceDescriptor` is never returned. -/
theorem findStudentByFaceDescriptor_spec (db : StudentDatabase) (q : List ℚ)
    (t : ℚ) :
    (findStudentByFaceDescriptor db q t = none
      ↔ ∀ s ∈ getAllStudents db, ∀ fd, s.faceDescriptor = some fd →
          fd.length = q.length → 0 < t → ¬ (distanceSq q fd < t ^ 2))
    ∧ (∀ r, findStudentByFaceDescriptor db q t = some r →
        ∃ fd l1 l2, getAllStudents db = l1 ++ r :: l2
          ∧ r.faceDescriptor = some fd
          ∧ fd.length = q.length
          ∧ 0 < t
          ∧ distanceSq q fd < t ^ 2
          ∧ (∀ s ∈ l1, ∀ fd', s.faceDescriptor = some fd' →
              fd'.length = q.length → distanceSq q fd' < t ^ 2 →
              distanceSq q fd < distanceSq q fd')
          ∧ (∀ s ∈ l2, ∀ fd', s.faceDescriptor = some fd' →
              fd'.length = q.length → distanceSq q fd' < t ^ 2 →
              distanceSq q fd ≤ distanceSq q fd')) := by
  constructor
  · constructor
    · intro hnone s hs fd hfd hlen ht hd
      rcases scanLoop_spec q t (mapValues db.students) with
        ⟨hfold, hall⟩ | ⟨r, x, l1, l2, hfold, hsplit, hqr, hl1, hl2⟩
      · have := hall s hs
        rw [qualDist_some_intro q t s fd hfd hlen ht hd] at this
        cases this
      · unfold findStudentByFaceDescriptor at hnone
        rw [hfold] at hnone
        cases hnone
    · intro hno
      rcases scanLoop_spec q t (mapValues db.students) with
        ⟨hfold, hall⟩ | ⟨r, x, l1, l2, hfold, hsplit, hqr, hl1, hl2⟩
      · unfold findStudentByFaceDescriptor
        rw [hfold]
      · obtain ⟨fd, hfd, hlen, ht, hx, hd⟩ := qualDist_some_elim hqr
        have hr : r ∈ getAllStudents db := by
          show r ∈ mapValues db.students
          rw [hsplit]
          exact List.mem_append_right _ (List.mem_cons_self _ _)
        exact absurd hd (hno r hr fd hfd hlen ht)
  · intro r hr
    rcases scanLoop_spec q t (mapValues db.students) with
      ⟨hfold, hall⟩ | ⟨r', x, l1, l2, hfold, hsplit, hqr, hl1, hl2⟩
    · unfold findStudentByFaceDescriptor at hr
      rw [hfold] at hr
      cases hr
    · unfold findStudentByFaceDescriptor at hr
      rw [hfold] at hr
      have hrr : r' = r := by
        simpa using hr
      subst hrr
      obtain ⟨fd, hfd, hlen, ht, hx, hd⟩ := qualDist_some_elim hqr
      refine ⟨fd, l1, l2, hsplit, hfd, hlen, ht, hd, ?_, ?_⟩
      · intro s hs fd' hfd' hlen' hd'
        have hz := hl1 s hs (distanceSq q fd')
          (qualDist_some_intro q t s fd' hfd' hlen' ht hd')
        rw [hx] at hz
        exact hz
      · intro s hs fd' hfd' hlen' hd'
        have hz := hl2 s hs (distanceSq q fd')
          (qualDist_some_intro q t s fd' hfd' hlen' ht hd')
        rw [hx] at hz
        exact hz

/-- C7: descriptors of differing length are infinitely distant
(`calculateEuclideanDistance` returns `POSITIVE_INFINITY`, here `none`), so
when no stored `faceDescriptor` has the same length as the query,
`findStudentByFaceDescriptor` returns "no match" — even if a stored
descriptor would be numerically close after truncation. -/
theorem mismatched_length_never_matches (db : StudentDatabase) (q : List ℚ)
    (t : ℚ) (a b : List ℚ) (hab : a.length ≠ b.length)
    (hdb : ∀ s ∈ getAllStudents db,
      s.faceDescriptor.map List.length ≠ some q.length) :
    calculateEuclideanDistance a b = none
    ∧ findStudentByFaceDescriptor db q t = none := by
  constructor
  · unfold calculateEuclideanDistance
    rw [if_pos hab]
  · rcases scanLoop_spec q t (mapValues db.students) with
      ⟨hfold, _⟩ | ⟨r, x, l1, l2, hfold, hsplit, hqr, _, _⟩
    · unfold findStudentByFaceDescriptor
      rw [hfold]
    · obtain ⟨fd, hfd, hlen, _, _, _⟩ := qualDist_some_elim hqr
      have hr : r ∈ getAllStudents db := by
        show r ∈ mapValues db.students
        rw [hsplit]
        exact List.mem_append_right _ (List.mem_cons_self _ _)
      have hne := hdb r hr
      rw [hfd] at hne
      simp only [Option.map_some'] at hne
      exact absurd (congrArg some hlen) hne

/-- A store holding one enrolled descriptor of length 2 (all other records
have none), used to witness C7 against a length-1 query. -/
def dbMismatch : StudentDatabase :=
  { students :=
      [("1", { sampleStudent1 date0 with faceDescriptor := some [0, 0] })],
    attendance := [] }

/-- C7 witness: a length-2 stored descriptor never matches a length-1 query
(threshold 0.6, the source default), and the distance between vectors of
lengths 1 and 2 is infinite. -/
theorem mismatched_length_never_matches_witness :
    calculateEuclideanDistance [0] [0, 0] = none
    ∧ findStudentByFaceDescriptor dbMismatch [0] (6 / 10) = none :=
  mismatched_length_never_matches dbMismatch [0] (6 / 10) [0] [0, 0]
    (by decide) (by decide)
